import Mathlib

/-!
Shallow embedding of mcstatus-http (src/main.rs): the mc-monitor output
parser (MonitorOutput::parse), address canonicalization
(get_status_for_server, lines 264-309), the probe-output post-processing
(fetch_status_with_mc_monitor), the backend dispatch
(fetch_status_from_server), and a sequential model of the moka cache's
try_get_with_by_ref (library code outside this repository, modelled from
the spec).  Rust machine integers (u8, u16) are modelled as Nat with
explicit range conditions; Rust panics are modelled as an explicit
outcome constructor; byte streams are modelled by their UTF-8 decoding
status, since the core only inspects the result of String::from_utf8
(Rust standard library, outside the repository).
-/

/-- Tests whether the first list is an initial segment of the second,
mirroring how Rust str::split_once locates its pattern. -/
def startsWithL : List Char → List Char → Bool
  | [], _ => true
  | _ :: _, [] => false
  | p :: ps, c :: cs => p == c && startsWithL ps cs

/-- Splits a character list at the first occurrence of the separator,
mirroring Rust str::split_once: the part strictly before the first
occurrence and the part strictly after it, or none when the separator
does not occur. -/
def splitOnceL (sep : List Char) : List Char → Option (List Char × List Char)
  | [] => if startsWithL sep [] then some ([], []) else none
  | c :: cs =>
    if startsWithL sep (c :: cs) then some ([], (c :: cs).drop sep.length)
    else (splitOnceL sep cs).map fun p => (c :: p.1, p.2)

/-- String-level wrapper for splitOnceL, the embedding of Rust
str::split_once (used in MonitorOutput::parse with both one-character
and three-character separators). -/
def splitOnce (s sep : String) : Option (String × String) :=
  (splitOnceL sep.data s.data).map fun p => (String.mk p.1, String.mk p.2)

/-- Embedding of Rust u16::from_str as used by `online_player_count.parse()`
and `max_player_count.parse()` in MonitorOutput::parse: an optional
leading plus sign, then one or more ASCII digits, value at most 65535;
none exactly when Rust's parse returns Err. -/
def parseU16 (s : String) : Option Nat :=
  let ds := if s.data.head? = some '+' then s.data.tail else s.data
  if ds ≠ [] ∧ ds.all Char.isDigit then
    let n := ds.foldl (fun a c => a * 10 + (c.toNat - 48)) 0
    if n ≤ 65535 then some n else none
  else none

/-- Embedding of struct MonitorOutput (src/main.rs lines 74-80); the two
u16 player counts are Nats bounded by parseU16. -/
structure MonitorOutput where
  version : String
  online_player_count : Nat
  max_player_count : Nat
  motd : String
deriving DecidableEq, Repr

/-- Outcome of MonitorOutput::parse: ok mirrors Ok(Self), err mirrors the
bail!/ensure! error returns, and panic marks the unchecked slice
motd[1..(l-1)] aborting the task. -/
inductive ParseOutcome where
  | ok (m : MonitorOutput)
  | err (msg : String)
  | panic (msg : String)
deriving DecidableEq, Repr

/-- Embedding of MonitorOutput::parse (src/main.rs lines 82-144),
token-by-token in source order.  The motd slice `motd[1..(l - 1)]` uses
Rust byte indices; for ASCII motd values (the only ones the claims
exercise) byte indices coincide with character indices, and the slice
panics exactly when the byte length l is 0 (index underflow in `l - 1`)
or 1 (inverted range 1..0), which is the panic condition modelled here. -/
def MonitorOutput.parse (output : String) : ParseOutcome :=
  match splitOnce output " : " with
  | none => .err "Command output was not separated by colon"
  | some (_host, rest) =>
    match splitOnce rest " " with
    | none => .err "Command output finished unexpectedly, expected space"
    | some (version, rest) =>
      match splitOnce version "=" with
      | none => .err "Version did not contain equals"
      | some (version_str, version) =>
        if version_str ≠ "version" then .err "Version string was invalid"
        else
          match splitOnce rest " " with
          | none => .err "Command output finished unexpectedly, expected space"
          | some (online, rest) =>
            match splitOnce online "=" with
            | none => .err "Online player count did not contain equals"
            | some (online_str, online_count) =>
              if online_str ≠ "online" then .err "Online string was invalid"
              else
                match parseU16 online_count with
                | none => .err "Failed parsing player count"
                | some online_player_count =>
                  match splitOnce rest " " with
                  | none => .err "Command output finished unexpectedly, expected space"
                  | some (maxSeg, rest) =>
                    match splitOnce maxSeg "=" with
                    | none => .err "Max player count did not contain equals"
                    | some (max_str, max_count) =>
                      if max_str ≠ "max" then .err "Max string was invalid"
                      else
                        match parseU16 max_count with
                        | none => .err "Failed parsing player count"
                        | some max_player_count =>
                          match splitOnce rest "=" with
                          | none => .err "motd did not contain equals"
                          | some (motd_str, motd) =>
                            if motd_str ≠ "motd" then .err "motd string was invalid"
                            else
                              let l := motd.length
                              if l < 2 then
                                .panic "byte index out of range in motd slice"
                              else
                                .ok ⟨version, online_player_count, max_player_count,
                                  String.mk ((motd.data.drop 1).take (l - 2))⟩

/-- Resolved network destination, embedding std::net::SocketAddr as used
here: the code only ever consumes a SocketAddr through `.ip().to_string()`
and `.port()`, so the IP is carried in its textual form and the port as a
Nat below 65536 (name resolution itself is an external collaborator). -/
structure SockAddr where
  ip : String
  port : Nat
deriving DecidableEq, Repr

/-- Textual form of a SockAddr, mirroring how a Rust SocketAddr displays
and serializes (`ip:port`). -/
def sockAddrString (a : SockAddr) : String := a.ip ++ ":" ++ toString a.port

/-- Embedding of struct ServerAddr (src/main.rs lines 29-33), the cache
key: the optional original hostname text plus the resolved address. -/
structure ServerAddr where
  domain_name : Option String
  address : SockAddr
deriving DecidableEq, Repr

/-- Embedding of struct ServerStatus (src/main.rs lines 147-153); the u8
exit_code is a Nat bounded by the conversion in
fetch_status_with_mc_monitor. -/
structure ServerStatus where
  requested_url : SockAddr
  exit_code : Nat
  output : Option MonitorOutput
  error : Option String
deriving DecidableEq, Repr

/-- A raw byte stream from the probe process, modelled by its UTF-8
decoding status: valid s means String::from_utf8 succeeds with s, invalid
means it fails.  The core never inspects the bytes except through
String::from_utf8. -/
inductive Utf8Bytes where
  | valid (s : String)
  | invalid
deriving DecidableEq, Repr

/-- The std::process::Output the probe run produced: status is the exit
code when the process terminated normally (ExitStatus::code(), none when
killed by a signal), plus captured stdout and stderr. -/
structure ProcessOutput where
  status : Option Int
  stdout : Utf8Bytes
  stderr : Utf8Bytes
deriving DecidableEq, Repr

/-- Result of the spawn-and-wait boundary in fetch_status_with_mc_monitor:
the process ran to completion, or Command::spawn failed, or
wait_with_output failed. -/
inductive SpawnResult where
  | spawned (out : ProcessOutput)
  | spawnFailed (msg : String)
  | waitFailed (msg : String)
deriving DecidableEq, Repr

/-- Outcome of a fetch: ok mirrors Ok(ServerStatus), err mirrors
Err((StatusCode, String)) with the status code as a Nat (500 for
INTERNAL_SERVER_ERROR), and panic marks an expect!/todo! aborting the
task. -/
inductive FetchOutcome where
  | ok (status : ServerStatus)
  | err (code : Nat) (msg : String)
  | panic (msg : String)
deriving DecidableEq, Repr

/-- The argument list fetch_status_with_mc_monitor passes to the probe
executable (src/main.rs lines 160-166): the status subcommand, then
-host with the resolved IP text and -port with the port text. -/
def mcMonitorArgs (url : SockAddr) : List String :=
  ["status", "-host", url.ip, "-port", toString url.port]

/-- Embedding of fetch_status_with_mc_monitor (src/main.rs lines 155-237)
after the spawn-and-wait boundary, in source order: decode stderr, test
it for emptiness, decode stdout, extract the exit code
(`.code().expect(..)` panics when the process was killed by a signal, and
`.try_into().expect(..)` panics when the code falls outside u8 range),
then parse stdout only when stderr was empty. -/
def fetch_status_with_mc_monitor (url : SockAddr) (r : SpawnResult) : FetchOutcome :=
  match r with
  | .spawnFailed e => .err 500 ("Failed to spawn mc-monitor: " ++ e)
  | .waitFailed e => .err 500 ("Failed running mc_monitor: " ++ e)
  | .spawned out =>
    match out.stderr with
    | .invalid => .err 500 "mc-monitor outputted bytes on stderr which were not utf-8"
    | .valid stderrS =>
      let stderrOpt : Option String := if stderrS = "" then none else some stderrS
      match out.stdout with
      | .invalid => .err 500 "mc-monitor outputted bytes on stdout which were not utf-8"
      | .valid stdoutS =>
        match out.status with
        | none => .panic "mc-monitor should terminate normally"
        | some c =>
          if 0 ≤ c ∧ c ≤ 255 then
            match stderrOpt with
            | none =>
              match MonitorOutput.parse stdoutS with
              | .ok m => .ok ⟨url, c.toNat, some m, none⟩
              | .err e => .err 500 ("Failed parsing mc_monitor output: " ++ e)
              | .panic p => .panic p
            | some s => .ok ⟨url, c.toNat, none, some s⟩
          else .panic "Exit codes should fit into u8s"

/-- Embedding of fetch_status_from_server (src/main.rs lines 239-254):
dispatch on use_mc_monitor; the false branch is `todo!()`, which panics.
The executable-path argument only selects which binary the ProbeExecutor
boundary spawns, which SpawnResult abstracts, so it is carried but
unused. -/
def fetch_status_from_server (url : SockAddr) (use_mc_monitor : Bool)
    (_mc_monitor_executable : String) (r : SpawnResult) : FetchOutcome :=
  if use_mc_monitor then
    fetch_status_with_mc_monitor url r
  else
    .panic "not yet implemented"

/-- Embedding of the address-canonicalization block of
get_status_for_server (src/main.rs lines 264-309).  Name resolution
(`to_socket_addrs`) is an external collaborator passed in as resolve,
returning either an error message or the candidate address list.
Rust `addr.split(again).count()` is always one more than the number of
separators, so count == 1 is modelled as zero colons and count == 2 as
exactly one; `split.next()` on a str is always Some of the first
segment, so the unreachable empty-input error branch does not arise. -/
def canonicalize_addr (resolve : String → Except String (List SockAddr))
    (addr : String) : Except (Nat × String) ServerAddr :=
  let colons := addr.data.count ':'
  let domain_name : Option String :=
    if addr.data.any Char.isAlpha then
      some (if colons = 0 then addr
            else String.mk (addr.data.takeWhile (fun c => c ≠ ':')))
    else none
  let formatted : Except (Nat × String) String :=
    if colons = 0 then .ok (addr ++ ":25565")
    else if colons = 1 then .ok addr
    else .error (400, "Invalid address for server, had too many colons")
  match formatted with
  | .error e => .error e
  | .ok a =>
    match resolve a with
    | .error e => .error (400, "addr was invalid: " ++ e)
    | .ok [] => .error (400, "addr resolved to no address")
    | .ok (sa :: _) => .ok ⟨domain_name, sa⟩

/-- Cache lookup in the sequential cache model: the value stored under the
key, if any. -/
def cacheLookup (cache : List (ServerAddr × ServerStatus)) (key : ServerAddr) :
    Option ServerStatus :=
  (cache.find? (fun p => p.1 == key)).map Prod.snd

/-- Modelled from the spec: moka's Cache::try_get_with_by_ref (library
code outside this repository), called in get_status_for_server (src/main.rs
lines 313-325), restricted to one sequential call.  Per the spec's
get_or_fetch contract: a live entry is returned without running the fetch;
on a miss the fetch runs, a successful result is installed and returned,
and a failed fetch installs nothing and its error is returned to the
caller.  Capacity/LRU and TTL timing are not modelled. -/
def try_get_with (cache : List (ServerAddr × ServerStatus)) (key : ServerAddr)
    (fetch : FetchOutcome) : List (ServerAddr × ServerStatus) × FetchOutcome :=
  match cacheLookup cache key with
  | some v => (cache, .ok v)
  | none =>
    match fetch with
    | .ok v => ((key, v) :: cache, .ok v)
    | .err c m => (cache, .err c m)
    | .panic m => (cache, .panic m)

/-- A concrete resolver for witnesses and counterexamples: every name
resolves to 1.2.3.4 port 25565. -/
def resolveOne : String → Except String (List SockAddr) :=
  fun _ => .ok [⟨"1.2.3.4", 25565⟩]

/-- Claim C8: parsing the exact mc-monitor output line with version
1.20.1, 3 of 20 players and motd A Minecraft Server succeeds, strips the
quotes around the motd and keeps its embedded spaces verbatim. -/
theorem claim_C8_parse_roundtrip :
    MonitorOutput.parse
        "1.2.3.4:25565 : version=1.20.1 online=3 max=20 motd=\x27A Minecraft Server\x27"
      = .ok ⟨"1.20.1", 3, 20, "A Minecraft Server"⟩ := by
  rfl

/-- Claim C4 failing input: the parser does not return a structured error
on every input; with an empty motd value the unchecked slice
motd[1..(l-1)] underflows and panics instead. -/
theorem claim_C4_empty_motd_panics :
    MonitorOutput.parse "a : version=1.20.1 online=3 max=20 motd="
      = .panic "byte index out of range in motd slice" := by
  rfl

/-- Claim C6 failing input: with use_mc_monitor false the alternate
backend branch is todo!(), so the fetch panics instead of returning a
NotImplemented error. -/
theorem claim_C6_todo_panics :
    fetch_status_from_server ⟨"1.2.3.4", 25565⟩ false "mc-monitor"
        (.spawned ⟨some 0, .valid "", .valid ""⟩)
      = .panic "not yet implemented" := by
  rfl

/-- Claim C2: when the fetch for a key fails (spawn error, non-UTF-8
output, or parse error) and no live entry exists, no cache entry is
installed for that key, the caller receives the failure, and a subsequent
call for the same key behaves exactly like a call on the original cache,
so it runs its fetch again. -/
theorem claim_C2_failure_not_cached
    (cache : List (ServerAddr × ServerStatus)) (key : ServerAddr)
    (url : SockAddr) (b : Bool) (exe : String) (r : SpawnResult)
    (c : Nat) (m : String)
    (hmiss : cacheLookup cache key = none)
    (hfail : fetch_status_from_server url b exe r = .err c m) :
    (try_get_with cache key (fetch_status_from_server url b exe r)).1 = cache ∧
    (try_get_with cache key (fetch_status_from_server url b exe r)).2 = .err c m ∧
    ∀ f2, try_get_with (try_get_with cache key (fetch_status_from_server url b exe r)).1 key f2
        = try_get_with cache key f2 := by
  have h1 : try_get_with cache key (fetch_status_from_server url b exe r)
      = (cache, .err c m) := by
    rw [hfail]
    unfold try_get_with
    rw [hmiss]
  exact ⟨by rw [h1], by rw [h1], fun f2 => by rw [h1]⟩

/-- Claim C2 witness: a spawn failure on an empty cache leaves the cache
empty. -/
theorem claim_C2_failure_not_cached_witness :
    cacheLookup [] ⟨some "host", ⟨"1.2.3.4", 25565⟩⟩ = none ∧
    fetch_status_from_server ⟨"1.2.3.4", 25565⟩ true "mc-monitor" (.spawnFailed "boom")
      = .err 500 "Failed to spawn mc-monitor: boom" ∧
    (try_get_with [] ⟨some "host", ⟨"1.2.3.4", 25565⟩⟩
        (fetch_status_from_server ⟨"1.2.3.4", 25565⟩ true "mc-monitor"
          (.spawnFailed "boom"))).1 = [] :=
  ⟨rfl, rfl,
    (claim_C2_failure_not_cached [] ⟨some "host", ⟨"1.2.3.4", 25565⟩⟩
      ⟨"1.2.3.4", 25565⟩ true "mc-monitor" (.spawnFailed "boom") 500
      "Failed to spawn mc-monitor: boom" rfl rfl).1⟩

/-- Claim C3: when the probe ran and wrote a non-empty (UTF-8) error
stream, the fetch succeeds with output none and the stderr text in the
error field, and on a cache miss this result is installed in the cache
under the key, where the next lookup finds it. -/
theorem claim_C3_reported_failure_cached
    (cache : List (ServerAddr × ServerStatus)) (key : ServerAddr)
    (url : SockAddr) (c : Int) (so se : String)
    (hse : se ≠ "") (h0 : 0 ≤ c) (h255 : c ≤ 255)
    (hmiss : cacheLookup cache key = none) :
    fetch_status_with_mc_monitor url (.spawned ⟨some c, .valid so, .valid se⟩)
      = .ok ⟨url, c.toNat, none, some se⟩ ∧
    (try_get_with cache key
        (fetch_status_with_mc_monitor url (.spawned ⟨some c, .valid so, .valid se⟩))).1
      = (key, ⟨url, c.toNat, none, some se⟩) :: cache ∧
    cacheLookup ((key, ⟨url, c.toNat, none, some se⟩) :: cache) key
      = some ⟨url, c.toNat, none, some se⟩ := by
  have h1 : fetch_status_with_mc_monitor url (.spawned ⟨some c, .valid so, .valid se⟩)
      = .ok ⟨url, c.toNat, none, some se⟩ := by
    unfold fetch_status_with_mc_monitor
    simp [hse, h0, h255]
  refine ⟨h1, ?_, ?_⟩
  · rw [h1]
    unfold try_get_with
    rw [hmiss]
  · unfold cacheLookup
    simp [List.find?]

/-- Claim C3 witness: stderr text down with exit code 1 yields a cached
success with null output. -/
theorem claim_C3_reported_failure_cached_witness :
    fetch_status_with_mc_monitor ⟨"1.2.3.4", 25565⟩
        (.spawned ⟨some 1, .valid "", .valid "down"⟩)
      = .ok ⟨⟨"1.2.3.4", 25565⟩, 1, none, some "down"⟩ ∧
    (try_get_with [] ⟨some "host", ⟨"1.2.3.4", 25565⟩⟩
        (fetch_status_with_mc_monitor ⟨"1.2.3.4", 25565⟩
          (.spawned ⟨some 1, .valid "", .valid "down"⟩))).1
      = [(⟨some "host", ⟨"1.2.3.4", 25565⟩⟩,
          ⟨⟨"1.2.3.4", 25565⟩, 1, none, some "down"⟩)] ∧
    cacheLookup [(⟨some "host", ⟨"1.2.3.4", 25565⟩⟩,
          ⟨⟨"1.2.3.4", 25565⟩, 1, none, some "down"⟩)]
        ⟨some "host", ⟨"1.2.3.4", 25565⟩⟩
      = some ⟨⟨"1.2.3.4", 25565⟩, 1, none, some "down"⟩ :=
  claim_C3_reported_failure_cached [] ⟨some "host", ⟨"1.2.3.4", 25565⟩⟩
    ⟨"1.2.3.4", 25565⟩ 1 "" "down" (by decide) (by decide) (by decide) rfl

/-- Claim C9: canonicalizing host and host:25565 under one resolver (so
name resolution is deterministic across the two calls) yields equal cache
keys. -/
theorem claim_C9_default_port_idempotent
    (resolve : String → Except String (List SockAddr)) :
    canonicalize_addr resolve "host" = canonicalize_addr resolve "host:25565" := by
  rfl

/-- Claim C5 counterexample: for the hostname input host, the hostname is
retained in the cache key, but the probe invocation built from the
resolved address does not receive the hostname text among its arguments —
it gets only the resolved IP and port. -/
theorem claim_C5_counterexample :
    canonicalize_addr resolveOne "host" = .ok ⟨some "host", ⟨"1.2.3.4", 25565⟩⟩ ∧
    mcMonitorArgs ⟨"1.2.3.4", 25565⟩ = ["status", "-host", "1.2.3.4", "-port", "25565"] ∧
    "host" ∉ mcMonitorArgs ⟨"1.2.3.4", 25565⟩ := by
  refine ⟨rfl, rfl, ?_⟩
  decide

/-- Claim C5 as amended: for a hostname input (alphabetic, no colon) the
original hostname text is retained in the cache key, while the probe
invocation consists exactly of the status subcommand and the resolved IP
and port — the hostname is not passed to the probe tool. -/
theorem claim_C5_hostname_in_key_only
    (resolve : String → Except String (List SockAddr)) (h : String)
    (dn : Option String) (sa : SockAddr)
    (hcolon : h.data.count ':' = 0)
    (halpha : h.data.any Char.isAlpha = true)
    (hok : canonicalize_addr resolve h = .ok ⟨dn, sa⟩) :
    dn = some h ∧
    mcMonitorArgs sa = ["status", "-host", sa.ip, "-port", toString sa.port] := by
  refine ⟨?_, rfl⟩
  simp only [canonicalize_addr, hcolon, halpha] at hok
  simp only [if_pos, if_true, eq_self_iff_true] at hok
  cases hr : resolve (h ++ ":25565") with
  | error e =>
    rw [hr] at hok
    exact Except.noConfusion hok
  | ok l =>
    cases l with
    | nil =>
      rw [hr] at hok
      exact Except.noConfusion hok
    | cons x xs =>
      rw [hr] at hok
      injection hok with h2
      injection h2 with hdn hsa
      exact hdn.symm

/-- Claim C5 witness: the amended theorem applied at the input host under
the concrete resolver. -/
theorem claim_C5_hostname_in_key_only_witness :
    (some "host" : Option String) = some "host" ∧
    mcMonitorArgs ⟨"1.2.3.4", 25565⟩
      = ["status", "-host", SockAddr.ip ⟨"1.2.3.4", 25565⟩, "-port",
         toString (SockAddr.port ⟨"1.2.3.4", 25565⟩)] :=
  claim_C5_hostname_in_key_only resolveOne "host" (some "host") ⟨"1.2.3.4", 25565⟩
    (by decide) (by decide) rfl

/-- Claim C7 counterexample: for the client-supplied address text host,
the requested_url field of the probe result is the resolved socket
address 1.2.3.4:25565, not the originally requested address text. -/
theorem claim_C7_counterexample :
    canonicalize_addr resolveOne "host" = .ok ⟨some "host", ⟨"1.2.3.4", 25565⟩⟩ ∧
    fetch_status_with_mc_monitor ⟨"1.2.3.4", 25565⟩
        (.spawned ⟨some 1, .valid "", .valid "down"⟩)
      = .ok ⟨⟨"1.2.3.4", 25565⟩, 1, none, some "down"⟩ ∧
    sockAddrString ⟨"1.2.3.4", 25565⟩ ≠ "host" := by
  refine ⟨rfl, rfl, ?_⟩
  decide

/-- Claim C7 as amended: every probe result (success and
backend-reported-failure variants alike) carries the resolved socket
address the fetch was invoked with in its requested_url field. -/
theorem claim_C7_requested_url_resolved
    (url : SockAddr) (r : SpawnResult) (st : ServerStatus)
    (h : fetch_status_with_mc_monitor url r = .ok st) :
    st.requested_url = url := by
  cases r with
  | spawnFailed e => exact FetchOutcome.noConfusion h
  | waitFailed e => exact FetchOutcome.noConfusion h
  | spawned out =>
    obtain ⟨status, stdout, stderr⟩ := out
    cases stderr with
    | invalid => exact FetchOutcome.noConfusion h
    | valid stderrS =>
      cases stdout with
      | invalid =>
        dsimp only [fetch_status_with_mc_monitor] at h
        exact FetchOutcome.noConfusion h
      | valid stdoutS =>
        cases status with
        | none =>
          dsimp only [fetch_status_with_mc_monitor] at h
          exact FetchOutcome.noConfusion h
        | some c =>
          dsimp only [fetch_status_with_mc_monitor] at h
          repeat' split at h
          all_goals first
            | exact FetchOutcome.noConfusion h
            | (injection h with h2; subst h2; rfl)

/-- Claim C7 witness: the amended theorem applied to a concrete
backend-reported-failure result. -/
theorem claim_C7_requested_url_resolved_witness :
    ServerStatus.requested_url ⟨⟨"1.2.3.4", 25565⟩, 1, none, some "down"⟩
      = ⟨"1.2.3.4", 25565⟩ :=
  claim_C7_requested_url_resolved ⟨"1.2.3.4", 25565⟩
    (.spawned ⟨some 1, .valid "", .valid "down"⟩)
    ⟨⟨"1.2.3.4", 25565⟩, 1, none, some "down"⟩ rfl

/-- Claim C10: the fetch returns a result only when the probe terminated
normally with an exit code in 0..255, and the recorded exit_code then
equals that code; when the probe was killed by a signal or its exit code
falls outside u8 range (with both streams valid UTF-8, so control reaches
the expect calls), the fetch panics. -/
theorem claim_C10_exit_code_contract
    (url : SockAddr) (st : Option Int) (so se : String) :
    (∀ s, fetch_status_with_mc_monitor url (.spawned ⟨st, .valid so, .valid se⟩) = .ok s →
        ∃ c, st = some c ∧ 0 ≤ c ∧ c ≤ 255 ∧ s.exit_code = c.toNat) ∧
    ((st = none ∨ ∃ c, st = some c ∧ ¬(0 ≤ c ∧ c ≤ 255)) →
        ∃ m, fetch_status_with_mc_monitor url (.spawned ⟨st, .valid so, .valid se⟩)
          = .panic m) := by
  constructor
  · intro s hs
    cases st with
    | none =>
      dsimp only [fetch_status_with_mc_monitor] at hs
      exact FetchOutcome.noConfusion hs
    | some c =>
      dsimp only [fetch_status_with_mc_monitor] at hs
      by_cases hc : 0 ≤ c ∧ c ≤ 255
      · refine ⟨c, rfl, hc.1, hc.2, ?_⟩
        rw [if_pos hc] at hs
        repeat' split at hs
        all_goals first
          | exact FetchOutcome.noConfusion hs
          | (injection hs with h2; subst h2; rfl)
      · rw [if_neg hc] at hs
        exact FetchOutcome.noConfusion hs
  · intro hbad
    cases st with
    | none => exact ⟨"mc-monitor should terminate normally", rfl⟩
    | some c =>
      rcases hbad with hnone | ⟨c2, hc2, hnb⟩
      · exact Option.noConfusion hnone
      · injection hc2 with hcc
        subst hcc
        refine ⟨"Exit codes should fit into u8s", ?_⟩
        dsimp only [fetch_status_with_mc_monitor]
        rw [if_neg hnb]

/-- Claim C10 witness: the theorem applied to a normal exit with code 7
and to a signal-killed probe. -/
theorem claim_C10_exit_code_contract_witness :
    (∃ c, (some 7 : Option Int) = some c ∧ 0 ≤ c ∧ c ≤ 255 ∧
        ServerStatus.exit_code ⟨⟨"1.2.3.4", 25565⟩, 7, none, some "x"⟩ = c.toNat) ∧
    (∃ m, fetch_status_with_mc_monitor ⟨"1.2.3.4", 25565⟩
        (.spawned ⟨none, .valid "", .valid ""⟩) = .panic m) :=
  ⟨(claim_C10_exit_code_contract ⟨"1.2.3.4", 25565⟩ (some 7) "" "x").1
      ⟨⟨"1.2.3.4", 25565⟩, 7, none, some "x"⟩ rfl,
   (claim_C10_exit_code_contract ⟨"1.2.3.4", 25565⟩ none "" "").2 (Or.inl rfl)⟩
